import Mathlib

/-!
Shallow embedding of the process/session lifecycle orchestrator of
`demo.py` (the Virtual MCP composition demo): the `subprocess.Popen`
handle semantics (poll, terminate, wait with timeout, kill), the
readiness polling loop, the `AsyncExitStack` resource stack, the two
cleanup entry points, the prerequisite check, result decoding, and the
top-level control flow of `async_main` / `main`, where `sys.exit`
raises `SystemExit`, a `BaseException` that `except Exception` does
not catch.
-/

/-- Identifier of a release callback pushed onto the `AsyncExitStack`. -/
abbrev CallbackId := Nat

/-- Release callback of the streamable HTTP transport context (line 345). -/
def transportCb : CallbackId := 0

/-- Release callback of the `ClientSession` context (line 350). -/
def sessionCb : CallbackId := 1

/-- The spawned `vmcp serve` child process as seen through its
`subprocess.Popen` handle. `gracefulDelay` abstracts the child's behaviour on
SIGTERM: `some d` means the child exits `d` seconds after receiving SIGTERM,
`none` means it ignores SIGTERM. `reaped` corresponds to `Popen.returncode`
being set; `alive` is whether the OS process still exists. -/
structure Proc where
  alive : Bool
  reaped : Bool
  gracefulDelay : Option Nat
  sigtermReceived : Bool
  deriving DecidableEq

/-- `Popen.poll`: reap the child if it has already exited. -/
def Proc.poll (p : Proc) : Proc :=
  if p.alive then p else { p with reaped := true }

/-- `Popen.terminate`, i.e. `send_signal(SIGTERM)`: polls first and delivers
the signal only when the child has not been reaped. Returns the updated handle
and whether a SIGTERM was actually delivered. -/
def Proc.terminateStep (p : Proc) : Proc × Bool :=
  let q := p.poll
  if q.reaped then (q, false) else ({ q with sigtermReceived := true }, true)

/-- `Popen.wait(timeout)`: `(handle, true)` when the child exited within
`timeout` seconds (the child is then reaped), `(handle, false)` for a
`TimeoutExpired`. -/
def Proc.waitTimeout (p : Proc) (timeout : Nat) : Proc × Bool :=
  if p.reaped then (p, true)
  else if p.alive = false then ({ p with reaped := true }, true)
  else if p.sigtermReceived then
    match p.gracefulDelay with
    | some d =>
      if d ≤ timeout then ({ p with alive := false, reaped := true }, true)
      else (p, false)
    | none => (p, false)
  else (p, false)

/-- `Popen.kill`, i.e. `send_signal(SIGKILL)`: polls first; when the child is
not reaped the kill is delivered and the child dies immediately (the code does
not wait afterwards, so the child is dead but not reaped). -/
def Proc.killStep (p : Proc) : Proc × Bool :=
  let q := p.poll
  if q.reaped then (q, false) else ({ q with alive := false }, true)

/-- Global mutable state of `demo.py`: `exit_stack` (`none` before it is
created at line 341, `some l` holds the pushed release callbacks in
acquisition order), the log of release callbacks that have fired (in firing
order), the `vmcp_process` handle, and counters of SIGTERM / SIGKILL
deliveries to the child. -/
structure DemoState where
  exitStack : Option (List CallbackId)
  fired : List CallbackId
  vmcpProcess : Option Proc
  termSent : Nat
  killSent : Nat
  deriving DecidableEq

/-- State at interpreter startup: both globals `None`, no stack, nothing
fired, no signals sent. -/
def initState : DemoState :=
  { exitStack := none, fired := [], vmcpProcess := none, termSent := 0, killSent := 0 }

/-- Lines 61-65: `await exit_stack.aclose()` drains the stack in reverse
acquisition order; every callback runs exactly once even when some raise
(`ExitStack` unwinding runs them all), and the stack is left empty. A `None`
stack is skipped. -/
def acloseStack (s : DemoState) : DemoState :=
  match s.exitStack with
  | none => s
  | some stk => { s with exitStack := some [], fired := s.fired ++ stk.reverse }

/-- Lines 68-75: stop the server: `terminate()`, then `wait(timeout=3)`, and
only on `TimeoutExpired` a `kill()`. Skipped when `vmcp_process` is `None`. -/
def stopVmcp (s : DemoState) : DemoState :=
  match s.vmcpProcess with
  | none => s
  | some p =>
    let t := p.terminateStep
    let newTerm := s.termSent + (if t.2 then 1 else 0)
    let w := t.1.waitTimeout 3
    if w.2 then { s with vmcpProcess := some w.1, termSent := newTerm }
    else
      let k := w.1.killStep
      { s with vmcpProcess := some k.1, termSent := newTerm,
               killSent := s.killSent + (if k.2 then 1 else 0) }

/-- Lines 56-75 (`cleanup_async`): close the MCP session first (drain the exit
stack), then stop the vmcp server. -/
def cleanup_async (s : DemoState) : DemoState := stopVmcp (acloseStack s)

/-- Lines 77-82 (`cleanup`, the synchronous wrapper used by the signal
handlers): `asyncio.run(cleanup_async())` raises `RuntimeError` when an event
loop is already running in this thread; `except Exception: pass` swallows it,
so in that case nothing happens. -/
def cleanup (loopRunning : Bool) (s : DemoState) : DemoState :=
  if loopRunning then s else cleanup_async s

/-- The observable part of the demo state: the stack contents, which release
callbacks fired, whether the server process is alive, and how many SIGTERM /
SIGKILL deliveries were made. (`Popen.returncode` bookkeeping is internal.) -/
def observe (s : DemoState) :
    Option (List CallbackId) × List CallbackId × Option Bool × Nat × Nat :=
  (s.exitStack, s.fired, s.vmcpProcess.map Proc.alive, s.termSent, s.killSent)

/-- Lines 322-330: the readiness polling loop body, probing from attempt index
`i` with a budget of remaining attempts. `probe i = true` models an HTTP 200
from the health endpoint (the loop breaks); `false` models either a non-200
response or a swallowed `httpx.RequestError`, after which the loop sleeps and
retries. Returns whether the loop broke (ready) and the number of probe
invocations made. -/
def waitReadyAux (probe : Nat → Bool) : Nat → Nat → Bool × Nat
  | _, 0 => (false, 0)
  | i, r + 1 =>
    if probe i then (true, 1)
    else
      let rest := waitReadyAux probe (i + 1) r
      (rest.1, rest.2 + 1)

/-- Lines 322-333: the `for i in range(maxAttempts) ... else` loop; the `else`
branch (no break within the budget) is the timeout. In `step_start_server` the
budget is 20. -/
def waitReady (probe : Nat → Bool) (maxAttempts : Nat) : Bool × Nat :=
  waitReadyAux probe 0 maxAttempts

/-- Python exception classes relevant to control flow: `SystemExit` (raised by
`sys.exit`, a `BaseException` that `except Exception` does NOT catch) versus
an ordinary `Exception`. -/
inductive PyErr where
  | systemExit (code : Nat)
  | exc
  deriving DecidableEq

/-- `exit_stack.enter_async_context(...)`: push a release callback onto the
stack. -/
def pushCb (c : CallbackId) (s : DemoState) : DemoState :=
  { s with exitStack := s.exitStack.map (fun stk => stk ++ [c]) }

/-- The child handle right after `subprocess.Popen` at line 301: alive, not
reaped, no SIGTERM received yet; `gd` is its behaviour on SIGTERM. -/
def spawnedProc (gd : Option Nat) : Proc :=
  { alive := true, reaped := false, gracefulDelay := gd, sigtermReceived := false }

/-- Lines 287-361 (`step_start_server`): spawn the server process, poll the
health endpoint up to 20 times; on timeout print and `sys.exit(1)` (line 333).
Otherwise create the `AsyncExitStack`, enter the transport context, enter the
`ClientSession` context, and run the session handshake; if the handshake
raises, the `except` at line 359 prints and calls `sys.exit(1)` (line 361)
without draining the stack. -/
def step_start_server (gd : Option Nat) (probe : Nat → Bool) (handshakeOk : Bool)
    (s : DemoState) : DemoState × Option PyErr :=
  let s1 := { s with vmcpProcess := some (spawnedProc gd) }
  if (waitReady probe 20).1 then
    let s2 := pushCb sessionCb (pushCb transportCb { s1 with exitStack := some [] })
    if handshakeOk then (s2, none) else (s2, some (PyErr.systemExit 1))
  else (s1, some (PyErr.systemExit 1))

/-- Which prerequisites are present: `shutil.which("vmcp")`,
`shutil.which("thv")`, and `CONFIG_FILE.exists()`. -/
structure Env where
  vmcpInPath : Bool
  thvInPath : Bool
  configExists : Bool
  deriving DecidableEq

/-- Lines 122-133: accumulate an error message for every missing prerequisite,
in check order. -/
def prereqErrors (e : Env) : List String :=
  (if e.vmcpInPath then [] else ["vmcp not found in PATH. Run: task install-vmcp"]) ++
  (if e.thvInPath then [] else ["thv not found in PATH. Run: task install"]) ++
  (if e.configExists then [] else ["Configuration file not found: vmcp-config.yaml"])

/-- Lines 135-141 (`check_prerequisites`): when any check failed, print every
accumulated error and `sys.exit(1)`; otherwise no exit and no state change. -/
def check_prerequisites (e : Env) : Option Nat :=
  if prereqErrors e = [] then none else some 1

/-- Outcome of `asyncio.run(async_main())` as seen by `main`. -/
inductive Outcome where
  | normal
  | sysExit (code : Nat)
  deriving DecidableEq

/-- Lines 650-694 (`async_main`): the prerequisite check, server start and
client connect, the three demo tool calls (`toolOk` abstracts their success),
and the keep-running prompt (`keep = true` is the operator's detach choice,
lines 674-687). The `except Exception` at line 691 catches ordinary
exceptions (cleanup, then `sys.exit(1)`) but NOT the `SystemExit` raised by
inner `sys.exit` calls, which propagates with no cleanup. -/
def async_main (e : Env) (gd : Option Nat) (probe : Nat → Bool)
    (handshakeOk toolOk keep : Bool) : DemoState × Outcome :=
  match check_prerequisites e with
  | some c => (initState, Outcome.sysExit c)
  | none =>
    match step_start_server gd probe handshakeOk initState with
    | (s, some (PyErr.systemExit c)) => (s, Outcome.sysExit c)
    | (s, some PyErr.exc) => (cleanup_async s, Outcome.sysExit 1)
    | (s, none) =>
      if toolOk then
        if keep then (acloseStack s, Outcome.normal)
        else (cleanup_async s, Outcome.normal)
      else (cleanup_async s, Outcome.sysExit 1)

/-- Lines 697-708 (`main`): run `async_main`; its `except Exception` at
line 705 would clean up and exit 1, but `SystemExit` is a `BaseException` and
passes through uncaught, so those paths end the process with the `SystemExit`
code and run no further cleanup. Returns the final state and process exit
code. -/
def main_run (e : Env) (gd : Option Nat) (probe : Nat → Bool)
    (handshakeOk toolOk keep : Bool) : DemoState × Nat :=
  match async_main e gd probe handshakeOk toolOk keep with
  | (s, Outcome.normal) => (s, 0)
  | (s, Outcome.sysExit c) => (s, c)

/-- An environment with every prerequisite present. -/
def envOk : Env := { vmcpInPath := true, thvInPath := true, configExists := true }

/-- An MCP client session object. Python truthiness of a `ClientSession`
object is always `True`, whether or not its underlying streams have been
closed; `closed` records the latter. -/
structure Session where
  closed : Bool
  deriving DecidableEq

/-- What a remote tool invocation attempt did. -/
inductive CallOutcome where
  | notConnected
  | callIssued (onClosedSession : Bool)
  deriving DecidableEq

/-- Lines 371-391 (`execute_composite_tool`): `if not mcp_session: raise
RuntimeError("MCP session not initialized")`; otherwise
`await mcp_session.call_tool(tool_name, params)` is issued. The truthiness
check only detects `None`, not a closed session object. -/
def execute_composite_tool (mcpSession : Option Session) (toolName : String)
    (params : List (String × String)) : CallOutcome :=
  match mcpSession with
  | none => CallOutcome.notConnected
  | some sess => CallOutcome.callIssued sess.closed

/-- A content block of a tool result: `types.TextContent` carrying a payload
string, or any other block kind. -/
inductive ContentBlock where
  | text (s : String)
  | other
  deriving DecidableEq

/-- Result of the decoding step of `display_workflow_result`. -/
inductive DecodeOut (α : Type) where
  | parsedResult (a : α)
  | rawOutput (s : String)
  | noContent
  deriving DecidableEq

/-- Lines 402-408 of `display_workflow_result`: scan the content list for the
first `TextContent` block (non-text blocks are skipped, and the loop breaks
after the first text block); `json.loads` is abstracted as
`loads : String → Option α`, where `none` models a raised `JSONDecodeError`,
which the `except` turns into the raw-string wrapper
`{"raw_output": content.text}` instead of an error. Empty content only prints
a notice. -/
def decode_first_text {α : Type} (loads : String → Option α) :
    List ContentBlock → DecodeOut α
  | [] => DecodeOut.noContent
  | ContentBlock.text s :: _ =>
    match loads s with
    | some a => DecodeOut.parsedResult a
    | none => DecodeOut.rawOutput s
  | ContentBlock.other :: rest => decode_first_text loads rest

theorem waitReadyAux_never (probe : Nat → Bool) (h : ∀ i, probe i = false) :
    ∀ r i, waitReadyAux probe i r = (false, r) := by
  intro r
  induction r with
  | zero => intro i; rfl
  | succ n ih => intro i; simp [waitReadyAux, h i, ih (i + 1)]

theorem waitReadyAux_hits (probe : Nat → Bool) (K : Nat)
    (hK : ∀ j, j < K → probe j = false) (hs : probe K = true) :
    ∀ r i, i ≤ K → K < i + r → waitReadyAux probe i r = (true, K + 1 - i) := by
  intro r
  induction r with
  | zero => intro i h1 h2; omega
  | succ n ih =>
    intro i h1 h2
    by_cases hpi : probe i = true
    · have hik : i = K := by
        by_contra hne
        have hlt : i < K := lt_of_le_of_ne h1 hne
        rw [hK i hlt] at hpi
        exact Bool.noConfusion hpi
      have h1K : K + 1 - i = 1 := by omega
      simp [waitReadyAux, hpi, h1K]
    · have hif : probe i = false := by
        cases h : probe i
        · rfl
        · exact absurd h hpi
      have hik : i < K := by
        rcases Nat.lt_or_ge i K with h | h
        · exact h
        · have : i = K := le_antisymm h1 h
          subst this
          rw [hs] at hif
          exact Bool.noConfusion hif
      have hrec := ih (i + 1) (by omega) (by omega)
      simp [waitReadyAux, hif, hrec]
      omega

theorem acloseStack_proj (s : DemoState) :
    (acloseStack s).vmcpProcess = s.vmcpProcess
    ∧ (acloseStack s).termSent = s.termSent
    ∧ (acloseStack s).killSent = s.killSent := by
  rcases s with ⟨es, f, v, t, k⟩
  cases es <;> exact ⟨rfl, rfl, rfl⟩

theorem acloseStack_shape (s : DemoState) :
    (acloseStack s).exitStack = none ∨ (acloseStack s).exitStack = some [] := by
  rcases s with ⟨es, f, v, t, k⟩
  cases es
  · cases h : ({ exitStack := none, fired := f, vmcpProcess := v, termSent := t, killSent := k } : DemoState).exitStack
    · exact Or.inl rfl
    · exact Or.inl rfl
  · exact Or.inr rfl

theorem acloseStack_fix (s : DemoState) (h : s.exitStack = none ∨ s.exitStack = some []) :
    acloseStack s = s := by
  rcases s with ⟨es, f, v, t, k⟩
  rcases h with h | h <;> simp only [] at h <;> subst h <;> simp [acloseStack]

theorem acloseStack_fired (s : DemoState) (stk : List CallbackId)
    (h : s.exitStack = some stk) :
    (acloseStack s).fired = s.fired ++ stk.reverse
    ∧ (acloseStack s).exitStack = some [] := by
  rcases s with ⟨es, f, v, t, k⟩
  simp only [] at h
  subst h
  exact ⟨rfl, rfl⟩

theorem stopVmcp_proj (s : DemoState) :
    (stopVmcp s).exitStack = s.exitStack ∧ (stopVmcp s).fired = s.fired := by
  rcases s with ⟨es, f, v, t, k⟩
  cases v with
  | none => exact ⟨rfl, rfl⟩
  | some p =>
    unfold stopVmcp
    simp only []
    split <;> exact ⟨rfl, rfl⟩

theorem stopVmcp_none (s : DemoState) (h : s.vmcpProcess = none) : stopVmcp s = s := by
  unfold stopVmcp
  rw [h]

theorem stopVmcp_live (s : DemoState) (p : Proc) (hp : s.vmcpProcess = some p)
    (ha : p.alive = true) (hr : p.reaped = false) :
    (stopVmcp s).termSent = s.termSent + 1
    ∧ (stopVmcp s).vmcpProcess.map Proc.alive = some false
    ∧ ((∃ d, p.gracefulDelay = some d ∧ d ≤ 3) → (stopVmcp s).killSent = s.killSent)
    ∧ ((p.gracefulDelay = none ∨ ∃ d, p.gracefulDelay = some d ∧ 3 < d) →
        (stopVmcp s).killSent = s.killSent + 1) := by
  rcases s with ⟨es, f, v, t, k⟩
  simp only [] at hp
  subst hp
  rcases p with ⟨pa, pr, pgd, ps⟩
  simp only [] at ha hr
  subst ha
  subst hr
  cases pgd with
  | none =>
    refine ⟨?_, ?_, ?_, ?_⟩ <;>
      simp [stopVmcp, Proc.terminateStep, Proc.poll, Proc.waitTimeout, Proc.killStep, Proc.alive]
  | some d =>
    by_cases hd : d ≤ 3
    · refine ⟨?_, ?_, ?_, ?_⟩ <;>
        simp [stopVmcp, Proc.terminateStep, Proc.poll, Proc.waitTimeout, Proc.killStep,
          Proc.alive, hd]
    · refine ⟨?_, ?_, ?_, ?_⟩ <;>
        simp [stopVmcp, Proc.terminateStep, Proc.poll, Proc.waitTimeout, Proc.killStep,
          Proc.alive, hd]

theorem stopVmcp_result_settled (s : DemoState) (q : Proc)
    (h : (stopVmcp s).vmcpProcess = some q) : q.reaped = true ∨ q.alive = false := by
  rcases s with ⟨es, f, v, t, k⟩
  cases v with
  | none => simp [stopVmcp] at h
  | some p =>
    rcases p with ⟨pa, pr, pgd, ps⟩
    cases pa <;> cases pr <;> cases ps <;>
      rcases pgd with _ | d <;>
      first
      | (simp [stopVmcp, Proc.terminateStep, Proc.poll, Proc.waitTimeout, Proc.killStep] at h;
         subst h; simp [Proc.reaped, Proc.alive])
      | (by_cases hd : d ≤ 3 <;>
         simp [stopVmcp, Proc.terminateStep, Proc.poll, Proc.waitTimeout, Proc.killStep, hd] at h <;>
         subst h <;> simp [Proc.reaped, Proc.alive])

theorem stopVmcp_settled_noop (s : DemoState) (p : Proc) (hp : s.vmcpProcess = some p)
    (hs : p.reaped = true ∨ p.alive = false) :
    observe (stopVmcp s) = observe s := by
  rcases s with ⟨es, f, v, t, k⟩
  simp only [] at hp
  subst hp
  rcases p with ⟨pa, pr, pgd, ps⟩
  rcases hs with h | h <;> simp only [] at h <;> subst h
  · cases pa <;>
      simp [stopVmcp, Proc.terminateStep, Proc.poll, Proc.waitTimeout, Proc.killStep,
        observe, Proc.alive]
  · cases pr <;>
      simp [stopVmcp, Proc.terminateStep, Proc.poll, Proc.waitTimeout, Proc.killStep,
        observe, Proc.alive]

theorem observe_eq_iff (s1 s2 : DemoState) :
    observe s1 = observe s2 ↔
      (s1.exitStack = s2.exitStack ∧ s1.fired = s2.fired
        ∧ s1.vmcpProcess.map Proc.alive = s2.vmcpProcess.map Proc.alive
        ∧ s1.termSent = s2.termSent ∧ s1.killSent = s2.killSent) := by
  simp [observe, Prod.ext_iff]

theorem cleanup_async_stable (s : DemoState) :
    observe (cleanup_async (cleanup_async s)) = observe (cleanup_async s) := by
  have hshape : (cleanup_async s).exitStack = none ∨ (cleanup_async s).exitStack = some [] := by
    have h1 := (stopVmcp_proj (acloseStack s)).1
    have h2 := acloseStack_shape s
    unfold cleanup_async
    rw [h1]
    exact h2
  have hfix : acloseStack (cleanup_async s) = cleanup_async s := acloseStack_fix _ hshape
  show observe (stopVmcp (acloseStack (cleanup_async s))) = observe (cleanup_async s)
  rw [hfix]
  cases hv : (cleanup_async s).vmcpProcess with
  | none => rw [stopVmcp_none _ hv]
  | some q =>
    have hset : q.reaped = true ∨ q.alive = false :=
      stopVmcp_result_settled (acloseStack s) q hv
    exact stopVmcp_settled_noop _ q hv hset

theorem cleanup_async_fired (s : DemoState) (stk : List CallbackId)
    (h : s.exitStack = some stk) :
    (cleanup_async s).fired = s.fired ++ stk.reverse
    ∧ (cleanup_async (cleanup_async s)).fired = s.fired ++ stk.reverse := by
  have h1 := acloseStack_fired s stk h
  have hfirst : (cleanup_async s).fired = s.fired ++ stk.reverse := by
    unfold cleanup_async
    rw [(stopVmcp_proj (acloseStack s)).2, h1.1]
  refine ⟨hfirst, ?_⟩
  have hshape : (cleanup_async s).exitStack = none ∨ (cleanup_async s).exitStack = some [] := by
    unfold cleanup_async
    rw [(stopVmcp_proj (acloseStack s)).1]
    exact acloseStack_shape s
  have hfix : acloseStack (cleanup_async s) = cleanup_async s := acloseStack_fix _ hshape
  show (stopVmcp (acloseStack (cleanup_async s))).fired = s.fired ++ stk.reverse
  rw [hfix, (stopVmcp_proj (cleanup_async s)).2, hfirst]

theorem count_reverse_eq (stk : List CallbackId) (c : CallbackId) :
    stk.reverse.count c = stk.count c :=
  (List.reverse_perm stk).count_eq c

theorem cleanup_async_once (s : DemoState) (stk : List CallbackId) (p : Proc)
    (hstk : s.exitStack = some stk) (hfired : s.fired = []) (hnd : stk.Nodup)
    (hp : s.vmcpProcess = some p) (ha : p.alive = true) (hr : p.reaped = false) :
    (∀ c, (cleanup_async s).fired.count c ≤ 1)
    ∧ (cleanup_async s).termSent = s.termSent + 1
    ∧ (cleanup_async s).vmcpProcess.map Proc.alive = some false := by
  have hfired1 : (cleanup_async s).fired = stk.reverse := by
    rw [(cleanup_async_fired s stk hstk).1, hfired]
    simp
  have haproj := acloseStack_proj s
  have hlive := stopVmcp_live (acloseStack s) p (haproj.1.trans hp) ha hr
  refine ⟨?_, ?_, ?_⟩
  · intro c
    rw [hfired1, count_reverse_eq]
    exact List.nodup_iff_count_le_one.mp hnd c
  · show (stopVmcp (acloseStack s)).termSent = s.termSent + 1
    rw [hlive.1, haproj.2.1]
  · exact hlive.2.1

/-- Claim C1 (violated by the code): with a health probe that never returns
HTTP 200, the readiness loop times out and line 333 calls `sys.exit(1)`; the
raised `SystemExit` is not an `Exception`, so neither the handler at line 691
nor the one at line 705 runs `cleanup_async`, and the run exits with status 1
leaving the spawned server process alive, with no SIGTERM or SIGKILL
delivered and no release callback fired — teardown is not attempted. -/
theorem readiness_timeout_orphans_server :
    (main_run envOk (some 0) (fun _ => false) true true false).2 = 1
    ∧ (main_run envOk (some 0) (fun _ => false) true true false).1.vmcpProcess.map Proc.alive
        = some true
    ∧ (main_run envOk (some 0) (fun _ => false) true true false).1.termSent = 0
    ∧ (main_run envOk (some 0) (fun _ => false) true true false).1.killSent = 0
    ∧ (main_run envOk (some 0) (fun _ => false) true true false).1.fired = [] := by
  decide

/-- Claim C2 (violated by the code): when the session handshake raises after
the transport and session contexts were both entered, line 361 calls
`sys.exit(1)` without draining the exit stack, and the `SystemExit` bypasses
both `except Exception` handlers: the run exits 1 with both release callbacks
still pending and none fired — in particular the transport release callback
does not fire before the failure ends the process. -/
theorem connect_failure_leaks_resources :
    (main_run envOk (some 0) (fun _ => true) false true false).2 = 1
    ∧ (main_run envOk (some 0) (fun _ => true) false true false).1.exitStack
        = some [transportCb, sessionCb]
    ∧ (main_run envOk (some 0) (fun _ => true) false true false).1.fired = []
    ∧ (main_run envOk (some 0) (fun _ => true) false true false).1.vmcpProcess.map Proc.alive
        = some true := by
  decide

/-- Claim C3: a termination signal delivered mid-run invokes `cleanup`
(which is a swallowed no-op when `asyncio.run` refuses to start inside the
running loop, and a full teardown otherwise); whichever happened, when the
normal-completion path subsequently runs `cleanup_async`, every release
callback has fired at most once, exactly one SIGTERM was delivered to the
server process across both invocations, and the process is no longer alive. -/
theorem signal_then_normal_teardown_once (b : Bool) (s : DemoState)
    (stk : List CallbackId) (p : Proc)
    (hstk : s.exitStack = some stk) (hfired : s.fired = []) (hnd : stk.Nodup)
    (hp : s.vmcpProcess = some p) (ha : p.alive = true) (hr : p.reaped = false) :
    (∀ c, (cleanup_async (cleanup b s)).fired.count c ≤ 1)
    ∧ (cleanup_async (cleanup b s)).termSent = s.termSent + 1
    ∧ (cleanup_async (cleanup b s)).vmcpProcess.map Proc.alive = some false := by
  have honce := cleanup_async_once s stk p hstk hfired hnd hp ha hr
  cases b
  · have hstable := (observe_eq_iff _ _).mp (cleanup_async_stable s)
    show (∀ c, (cleanup_async (cleanup_async s)).fired.count c ≤ 1)
      ∧ (cleanup_async (cleanup_async s)).termSent = s.termSent + 1
      ∧ (cleanup_async (cleanup_async s)).vmcpProcess.map Proc.alive = some false
    refine ⟨?_, ?_, ?_⟩
    · intro c
      rw [hstable.2.1]
      exact honce.1 c
    · rw [hstable.2.2.2.1]
      exact honce.2.1
    · rw [hstable.2.2.1]
      exact honce.2.2
  · exact honce

/-- Claim C3 witness: a concrete mid-run state (two pushed callbacks, live
server ignoring SIGTERM, loop not running at signal delivery). -/
theorem signal_then_normal_teardown_once_witness :
    (cleanup_async (cleanup false
      { exitStack := some [transportCb, sessionCb], fired := [],
        vmcpProcess := some { alive := true, reaped := false, gracefulDelay := none,
                              sigtermReceived := false },
        termSent := 0, killSent := 0 })).fired.count sessionCb ≤ 1
    ∧ (cleanup_async (cleanup false
      { exitStack := some [transportCb, sessionCb], fired := [],
        vmcpProcess := some { alive := true, reaped := false, gracefulDelay := none,
                              sigtermReceived := false },
        termSent := 0, killSent := 0 })).termSent = 1 := by
  have h := signal_then_normal_teardown_once false
    { exitStack := some [transportCb, sessionCb], fired := [],
      vmcpProcess := some { alive := true, reaped := false, gracefulDelay := none,
                            sigtermReceived := false },
      termSent := 0, killSent := 0 }
    [transportCb, sessionCb]
    { alive := true, reaped := false, gracefulDelay := none, sigtermReceived := false }
    rfl rfl (by decide) rfl rfl rfl
  exact ⟨h.1 sessionCb, h.2.1⟩

/-- Claim C4: a probe that fails its first K invocations and then succeeds
makes the readiness loop of `step_start_server` succeed after exactly K+1
probe invocations whenever the attempt budget exceeds K; a probe that never
succeeds is invoked exactly `maxAttempts` times (20 in this program) and the
loop then reports timeout, never invoking the probe more. -/
theorem waitReady_bounded_retry :
    (∀ (probe : Nat → Bool) (K m : Nat), (∀ j, j < K → probe j = false) →
        probe K = true → K < m → waitReady probe m = (true, K + 1))
    ∧ (∀ (probe : Nat → Bool) (m : Nat), (∀ i, probe i = false) →
        waitReady probe m = (false, m)) := by
  constructor
  · intro probe K m hK hs hKm
    have h := waitReadyAux_hits probe K hK hs m 0 (by omega) (by omega)
    simpa [waitReady] using h
  · intro probe m h
    simpa [waitReady] using waitReadyAux_never probe h m 0

/-- Claim C4 witness: a probe failing twice then succeeding is called exactly
three times; an always-failing probe is called exactly 20 times. -/
theorem waitReady_bounded_retry_witness :
    waitReady (fun i => 2 ≤ i) 5 = (true, 3)
    ∧ waitReady (fun _ => false) 20 = (false, 20) :=
  ⟨waitReady_bounded_retry.1 (fun i => 2 ≤ i) 2 5 (by decide) (by decide) (by decide),
   waitReady_bounded_retry.2 (fun _ => false) 20 (fun _ => rfl)⟩

/-- Claim C5: the full teardown `cleanup_async` (exit-stack drain, then server
stop) is idempotent: a second invocation in succession — which finds the
already-empty stack — leaves the same observable state as a single one, and
under it every release callback fires exactly once. -/
theorem cleanup_async_idempotent :
    (∀ s : DemoState, observe (cleanup_async (cleanup_async s)) = observe (cleanup_async s))
    ∧ (∀ (s : DemoState) (stk : List CallbackId), s.exitStack = some stk →
        s.fired = [] → stk.Nodup → ∀ c ∈ stk,
          (cleanup_async s).fired.count c = 1
          ∧ (cleanup_async (cleanup_async s)).fired.count c = 1) := by
  constructor
  · exact cleanup_async_stable
  · intro s stk hes hf hnd c hc
    have hf1 := (cleanup_async_fired s stk hes).1
    have hf2 := (cleanup_async_fired s stk hes).2
    have hcnt : stk.reverse.count c = 1 := by
      rw [count_reverse_eq]
      exact List.count_eq_one_of_mem hnd hc
    constructor
    · rw [hf1, hf]
      simpa using hcnt
    · rw [hf2, hf]
      simpa using hcnt

/-- Claim C5 witness: the concrete two-callback stack with a stubborn server
process. -/
theorem cleanup_async_idempotent_witness :
    observe (cleanup_async (cleanup_async
      { exitStack := some [transportCb, sessionCb], fired := [],
        vmcpProcess := some { alive := true, reaped := false, gracefulDelay := none,
                              sigtermReceived := false },
        termSent := 0, killSent := 0 }))
      = observe (cleanup_async
      { exitStack := some [transportCb, sessionCb], fired := [],
        vmcpProcess := some { alive := true, reaped := false, gracefulDelay := none,
                              sigtermReceived := false },
        termSent := 0, killSent := 0 })
    ∧ (cleanup_async (cleanup_async
      { exitStack := some [transportCb, sessionCb], fired := [],
        vmcpProcess := some { alive := true, reaped := false, gracefulDelay := none,
                              sigtermReceived := false },
        termSent := 0, killSent := 0 })).fired.count transportCb = 1 := by
  refine ⟨cleanup_async_idempotent.1 _, ?_⟩
  exact (cleanup_async_idempotent.2
    { exitStack := some [transportCb, sessionCb], fired := [],
      vmcpProcess := some { alive := true, reaped := false, gracefulDelay := none,
                            sigtermReceived := false },
      termSent := 0, killSent := 0 }
    [transportCb, sessionCb] rfl rfl (by decide) transportCb (by decide)).2

/-- Claim C6: when the operator chooses detach at normal completion (answers
`y` at line 672), only `exit_stack.aclose()` runs: the session-level
callbacks fire in reverse acquisition order (session, then transport), the
resource stack is left empty, while the server handle is untouched — still
alive with zero SIGTERM/SIGKILL deliveries — and the run exits 0. -/
theorem detach_leaves_server_running (gd : Option Nat) (probe : Nat → Bool)
    (hready : (waitReady probe 20).1 = true) :
    (main_run envOk gd probe true true true).1.exitStack = some []
    ∧ (main_run envOk gd probe true true true).1.fired = [sessionCb, transportCb]
    ∧ (main_run envOk gd probe true true true).1.vmcpProcess.map Proc.alive = some true
    ∧ (main_run envOk gd probe true true true).1.termSent = 0
    ∧ (main_run envOk gd probe true true true).1.killSent = 0
    ∧ (main_run envOk gd probe true true true).2 = 0 := by
  simp [main_run, async_main, check_prerequisites, prereqErrors, envOk,
    step_start_server, hready, pushCb, acloseStack, initState, spawnedProc,
    transportCb, sessionCb, Proc.alive]

/-- Claim C6 witness: an always-ready probe. -/
theorem detach_leaves_server_running_witness :
    (main_run envOk (some 0) (fun _ => true) true true true).1.fired
        = [sessionCb, transportCb]
    ∧ (main_run envOk (some 0) (fun _ => true) true true true).1.termSent = 0
    ∧ (main_run envOk (some 0) (fun _ => true) true true true).2 = 0 := by
  have h := detach_leaves_server_running (some 0) (fun _ => true) (by decide)
  exact ⟨h.2.1, h.2.2.2.1, h.2.2.2.2.2⟩

/-- Claim C7: decoding in `display_workflow_result` skips non-text blocks,
and on the first text block falls back to the raw-string wrapper when
`json.loads` fails, rather than erroring, and yields the parsed structure
when the payload is valid. -/
theorem decode_first_text_fallback {α : Type} (loads : String → Option α)
    (pre rest : List ContentBlock) (s : String)
    (hpre : ∀ b ∈ pre, b = ContentBlock.other) :
    (loads s = none →
      decode_first_text loads (pre ++ ContentBlock.text s :: rest)
        = DecodeOut.rawOutput s)
    ∧ (∀ a, loads s = some a →
      decode_first_text loads (pre ++ ContentBlock.text s :: rest)
        = DecodeOut.parsedResult a) := by
  induction pre with
  | nil =>
    constructor
    · intro h
      simp [decode_first_text, h]
    · intro a h
      simp [decode_first_text, h]
  | cons b bs ih =>
    have hb : b = ContentBlock.other := hpre b (by simp)
    subst hb
    have ih2 := ih (fun x hx => hpre x (by simp [hx]))
    constructor
    · intro h
      simpa [decode_first_text] using ih2.1 h
    · intro a h
      simpa [decode_first_text] using ih2.2 a h

/-- Claim C7 witness: a truncated JSON payload decodes to the raw wrapper, a
valid one to the parsed structure, behind a skipped non-text block. -/
theorem decode_first_text_fallback_witness :
    decode_first_text (fun t => if t = "bad payload" then none else some t)
      [ContentBlock.other, ContentBlock.text "bad payload"]
      = DecodeOut.rawOutput "bad payload"
    ∧ decode_first_text (fun t => if t = "bad payload" then none else some t)
      [ContentBlock.other, ContentBlock.text "42"]
      = DecodeOut.parsedResult "42" := by
  refine ⟨?_, ?_⟩
  · exact (decode_first_text_fallback (fun t => if t = "bad payload" then none else some t)
      [ContentBlock.other] [] "bad payload" (by decide)).1 (by simp)
  · exact (decode_first_text_fallback (fun t => if t = "bad payload" then none else some t)
      [ContentBlock.other] [] "42" (by decide)).2 "42" (by simp)

/-- Claim C8 counterexample: a present-but-closed session passes the
`if not mcp_session` truthiness check of `execute_composite_tool` (a session
object is always truthy), so the remote call is issued on the closed session
instead of failing fast with the not-connected error. -/
theorem closed_session_call_issued :
    execute_composite_tool (some { closed := true }) "aggregate_docs" []
        = CallOutcome.callIssued true
    ∧ execute_composite_tool (some { closed := true }) "aggregate_docs" []
        ≠ CallOutcome.notConnected := by
  decide

/-- Claim C8 (amended): for every tool name and parameter mapping, invoking a
remote tool call when the session is absent (`mcp_session` is `None`) raises
the not-connected `RuntimeError` before any remote call is issued; a closed
but still-present session is not detected by this check. -/
theorem absent_session_fails_fast (toolName : String)
    (params : List (String × String)) :
    execute_composite_tool none toolName params = CallOutcome.notConnected := rfl

/-- Claim C9: stopping the server first delivers a SIGTERM, waits up to the
3-second grace period, and escalates to SIGKILL only when the process has not
exited within it; a process exiting within the grace period is never killed,
and either way the process ends up not alive. -/
theorem stop_graceful_then_kill (s : DemoState) (p : Proc)
    (hp : s.vmcpProcess = some p) (ha : p.alive = true) (hr : p.reaped = false) :
    (stopVmcp s).termSent = s.termSent + 1
    ∧ ((∃ d, p.gracefulDelay = some d ∧ d ≤ 3) → (stopVmcp s).killSent = s.killSent)
    ∧ ((p.gracefulDelay = none ∨ ∃ d, p.gracefulDelay = some d ∧ 3 < d) →
        (stopVmcp s).killSent = s.killSent + 1)
    ∧ (stopVmcp s).vmcpProcess.map Proc.alive = some false := by
  have h := stopVmcp_live s p hp ha hr
  exact ⟨h.1, h.2.2.1, h.2.2.2, h.2.1⟩

/-- Claim C9 witness: a process exiting 1 second after SIGTERM receives the
SIGTERM and is never killed. -/
theorem stop_graceful_then_kill_witness :
    (stopVmcp
      { exitStack := none, fired := [],
        vmcpProcess := some { alive := true, reaped := false, gracefulDelay := some 1,
                              sigtermReceived := false },
        termSent := 0, killSent := 0 }).termSent = 1
    ∧ (stopVmcp
      { exitStack := none, fired := [],
        vmcpProcess := some { alive := true, reaped := false, gracefulDelay := some 1,
                              sigtermReceived := false },
        termSent := 0, killSent := 0 }).killSent = 0 := by
  have h := stop_graceful_then_kill
    { exitStack := none, fired := [],
      vmcpProcess := some { alive := true, reaped := false, gracefulDelay := some 1,
                            sigtermReceived := false },
      termSent := 0, killSent := 0 }
    { alive := true, reaped := false, gracefulDelay := some 1, sigtermReceived := false }
    rfl rfl rfl
  exact ⟨h.1, h.2.1 ⟨1, rfl, by omega⟩⟩

/-- Claim C10: the prerequisite check aggregates all failures: each missing
item contributes its message to the reported list, any failure makes the run
exit with status 1 with the global state untouched (no subprocess spawned, no
resource acquired), and when all three items are present the check neither
exits nor changes state. -/
theorem check_prerequisites_aggregates (e : Env) (gd : Option Nat)
    (probe : Nat → Bool) (handshakeOk toolOk keep : Bool) :
    (e.vmcpInPath = false →
      "vmcp not found in PATH. Run: task install-vmcp" ∈ prereqErrors e)
    ∧ (e.thvInPath = false →
      "thv not found in PATH. Run: task install" ∈ prereqErrors e)
    ∧ (e.configExists = false →
      "Configuration file not found: vmcp-config.yaml" ∈ prereqErrors e)
    ∧ ((e.vmcpInPath = false ∨ e.thvInPath = false ∨ e.configExists = false) →
        main_run e gd probe handshakeOk toolOk keep = (initState, 1))
    ∧ (e.vmcpInPath = true → e.thvInPath = true → e.configExists = true →
        check_prerequisites e = none ∧ prereqErrors e = []) := by
  rcases e with ⟨v, t, c⟩
  cases v <;> cases t <;> cases c <;>
    simp [prereqErrors, check_prerequisites, main_run, async_main]

/-- Claim C10 witness: with the vmcp binary and the config file missing, both
messages are reported and the run exits 1 without touching any state. -/
theorem check_prerequisites_aggregates_witness :
    "vmcp not found in PATH. Run: task install-vmcp"
        ∈ prereqErrors { vmcpInPath := false, thvInPath := true, configExists := false }
    ∧ "Configuration file not found: vmcp-config.yaml"
        ∈ prereqErrors { vmcpInPath := false, thvInPath := true, configExists := false }
    ∧ main_run { vmcpInPath := false, thvInPath := true, configExists := false }
        none (fun _ => true) true true false = (initState, 1) := by
  have h := check_prerequisites_aggregates
    { vmcpInPath := false, thvInPath := true, configExists := false }
    none (fun _ => true) true true false
  exact ⟨h.1 rfl, h.2.2.1 rfl, h.2.2.2.1 (Or.inl rfl)⟩
